import Mathlib

/-!
Verification of the Cost Projection Calculator
(`src/scripts/calculate_savings.py`).

The calculator is a set of pure closed-form pricing functions over
integer token counts and request counts, producing fractional currency
amounts.  We embed the arithmetic over `ℚ` (the Python source computes
with decimal-valued literals and `/ 1_000_000` true division; all claims
are about the exact values of these formulas).  Token counts and request
counts are embedded as `ℤ`, matching Python's unbounded `int`.

Python's `float` division raises `ZeroDivisionError` on a zero divisor
(there is no silent NaN for `0.0 / 0.0`); we model a division that can
raise with `Option ℚ`, where `none` stands for the raised
`ZeroDivisionError`.
-/

namespace CalculateSavings

/-- The `Pricing` dataclass: Claude API pricing tiers, per million tokens.
Field values are the dataclass defaults; the source always instantiates
`Pricing()` with no overrides. -/
structure Pricing where
  SONNET_INPUT : ℚ := 3.00
  SONNET_OUTPUT : ℚ := 15.00
  SONNET_BATCH_INPUT : ℚ := 1.50
  SONNET_BATCH_OUTPUT : ℚ := 7.50
  SONNET_CACHE_WRITE : ℚ := 3.75
  SONNET_CACHE_READ : ℚ := 0.30
  OPUS_INPUT : ℚ := 5.00
  OPUS_OUTPUT : ℚ := 25.00
  OPUS_BATCH_INPUT : ℚ := 2.50
  OPUS_BATCH_OUTPUT : ℚ := 12.50
  HAIKU_INPUT : ℚ := 1.00
  HAIKU_OUTPUT : ℚ := 5.00
  HAIKU_BATCH_INPUT : ℚ := 0.50
  HAIKU_BATCH_OUTPUT : ℚ := 2.50

/-- `p = Pricing()` as instantiated inside every calculator function. -/
def pricing : Pricing := {}

/-- `calculate_normal_cost`: cost without any optimization.
The tier dispatch mirrors the source exactly: `sonnet`, then `opus`,
and an `else` branch (commented `# haiku` in the source) that applies
haiku prices to every other string. -/
def calculate_normal_cost (input_tokens output_tokens : ℤ)
    (requests : ℤ := 1) (model : String := "sonnet") : ℚ :=
  let p := pricing
  let input_price : ℚ :=
    if model = "sonnet" then p.SONNET_INPUT
    else if model = "opus" then p.OPUS_INPUT
    else p.HAIKU_INPUT
  let output_price : ℚ :=
    if model = "sonnet" then p.SONNET_OUTPUT
    else if model = "opus" then p.OPUS_OUTPUT
    else p.HAIKU_OUTPUT
  ((input_tokens : ℚ) * (requests : ℚ) * input_price +
    (output_tokens : ℚ) * (requests : ℚ) * output_price) / 1000000

/-- `calculate_batch_cost`: cost with the Batch API (50% off), same
dispatch structure as `calculate_normal_cost` with batch prices. -/
def calculate_batch_cost (input_tokens output_tokens : ℤ)
    (requests : ℤ := 1) (model : String := "sonnet") : ℚ :=
  let p := pricing
  let input_price : ℚ :=
    if model = "sonnet" then p.SONNET_BATCH_INPUT
    else if model = "opus" then p.OPUS_BATCH_INPUT
    else p.HAIKU_BATCH_INPUT
  let output_price : ℚ :=
    if model = "sonnet" then p.SONNET_BATCH_OUTPUT
    else if model = "opus" then p.OPUS_BATCH_OUTPUT
    else p.HAIKU_BATCH_OUTPUT
  ((input_tokens : ℚ) * (requests : ℚ) * input_price +
    (output_tokens : ℚ) * (requests : ℚ) * output_price) / 1000000

/-- The advisory lines printed by `calculate_cached_cost`: when the model
is not `"sonnet"` it prints the warning
`⚠️  Cache pricing shown for Sonnet. Other models may vary.`
(non-fatal; the computation continues unchanged). -/
def cached_cost_notices (model : String) : List String :=
  if model ≠ "sonnet" then
    ["Cache pricing shown for Sonnet. Other models may vary."]
  else []

/-- `calculate_cached_cost`: cost with Prompt Caching.  Note that the
body uses the SONNET price constants throughout — cache write/read AND
standalone input/output — regardless of `model`; `model` only controls
the advisory print (see `cached_cost_notices`). -/
def calculate_cached_cost (input_tokens output_tokens system_tokens : ℤ)
    (requests : ℤ := 1) (model : String := "sonnet") : ℚ :=
  let p := pricing
  let _ := cached_cost_notices model
  let first_request : ℚ :=
    ((system_tokens : ℚ) * p.SONNET_CACHE_WRITE +
      (input_tokens : ℚ) * p.SONNET_INPUT +
      (output_tokens : ℚ) * p.SONNET_OUTPUT) / 1000000
  let subsequent : ℚ :=
    if requests > 1 then
      ((requests : ℚ) - 1) *
        ((system_tokens : ℚ) * p.SONNET_CACHE_READ +
          (input_tokens : ℚ) * p.SONNET_INPUT +
          (output_tokens : ℚ) * p.SONNET_OUTPUT) / 1000000
    else 0
  first_request + subsequent

/-- `calculate_combined_cost`: cost with both Batch API and Caching
(sonnet-only; the source takes no `model` parameter here). -/
def calculate_combined_cost (input_tokens output_tokens system_tokens : ℤ)
    (requests : ℤ := 1) : ℚ :=
  let p := pricing
  let first_request : ℚ :=
    ((system_tokens : ℚ) * p.SONNET_CACHE_WRITE +
      (input_tokens : ℚ) * p.SONNET_BATCH_INPUT +
      (output_tokens : ℚ) * p.SONNET_BATCH_OUTPUT) / 1000000
  let subsequent : ℚ :=
    if requests > 1 then
      ((requests : ℚ) - 1) *
        ((system_tokens : ℚ) * p.SONNET_CACHE_READ +
          (input_tokens : ℚ) * p.SONNET_BATCH_INPUT +
          (output_tokens : ℚ) * p.SONNET_BATCH_OUTPUT) / 1000000
    else 0
  first_request + subsequent

/-- The four cost figures computed at the top of `print_report`: the
normal and batch computations receive `input_tokens + system_tokens` as
their input-token argument, while cached and combined keep
`system_tokens` separate. -/
def report_costs (input_tokens output_tokens system_tokens requests : ℤ)
    (model : String) : ℚ × ℚ × ℚ × ℚ :=
  (calculate_normal_cost (input_tokens + system_tokens) output_tokens requests model,
   calculate_batch_cost (input_tokens + system_tokens) output_tokens requests model,
   calculate_cached_cost input_tokens output_tokens system_tokens requests model,
   calculate_combined_cost input_tokens output_tokens system_tokens requests)

/-- Python `float` division: raises `ZeroDivisionError` on a zero
divisor (modelled as `none`); otherwise exact rational division. -/
def float_div (a b : ℚ) : Option ℚ :=
  if b = 0 then none else some (a / b)

/-- A savings-percentage cell of the report table:
`(1 - cost/normal) * 100`, where the inner division is Python `float`
division and so raises (`none`) when `normal = 0`. -/
def savings_pct (cost normal : ℚ) : Option ℚ :=
  (float_div cost normal).map (fun q => (1 - q) * 100)

/-- The three percentage-savings cells of `print_report`'s comparison
table (batch, cached, combined rows), in order of evaluation. -/
def report_pcts (input_tokens output_tokens system_tokens requests : ℤ)
    (model : String) : Option ℚ × Option ℚ × Option ℚ :=
  let c := report_costs input_tokens output_tokens system_tokens requests model
  (savings_pct c.2.1 c.1, savings_pct c.2.2.1 c.1, savings_pct c.2.2.2 c.1)

end CalculateSavings

namespace CalculateSavings

/-! ## Claim C1 -/

/-- Claim C1 as stated is false: at the unrecognized tier identifier
`"gpt-4"`, `calculate_normal_cost` and `calculate_batch_cost` return
normally (the embedded functions are total, as are the Python ones:
no raise statement exists in them), yielding exactly the low-capability
(haiku) tier's prices — 1.00 and 0.50 dollars per million input tokens —
instead of failing with an `InvalidTierError`. -/
theorem C1_counterexample :
    calculate_normal_cost 1000000 0 1 "gpt-4" = 1 ∧
    calculate_batch_cost 1000000 0 1 "gpt-4" = 0.50 ∧
    calculate_normal_cost 1000000 0 1 "gpt-4" =
      calculate_normal_cost 1000000 0 1 "haiku" ∧
    calculate_batch_cost 1000000 0 1 "gpt-4" =
      calculate_batch_cost 1000000 0 1 "haiku" := by
  refine ⟨?_, ?_, ?_, ?_⟩ <;>
    simp only [calculate_normal_cost, calculate_batch_cost, pricing,
      String.reduceEq, reduceIte] <;>
    norm_num

/-- Claim C1, amended: for every model-tier identifier outside the
recognized set, `calculate_normal_cost` and `calculate_batch_cost`
silently fall back to the low-capability (haiku) tier's prices — they
never fail. -/
theorem C1_amended_silent_haiku_fallback (t o r : ℤ) (m : String)
    (h1 : m ≠ "sonnet") (h2 : m ≠ "opus") :
    calculate_normal_cost t o r m = calculate_normal_cost t o r "haiku" ∧
    calculate_batch_cost t o r m = calculate_batch_cost t o r "haiku" := by
  constructor <;> simp [calculate_normal_cost, calculate_batch_cost, h1, h2]

/-- Witness for `C1_amended_silent_haiku_fallback` at the concrete
unrecognized tier `"mystery-tier"`. -/
theorem C1_witness :
    calculate_normal_cost 5 7 2 "mystery-tier" =
      calculate_normal_cost 5 7 2 "haiku" ∧
    calculate_batch_cost 5 7 2 "mystery-tier" =
      calculate_batch_cost 5 7 2 "haiku" :=
  C1_amended_silent_haiku_fallback 5 7 2 "mystery-tier"
    (by decide) (by decide)

/-! ## Claim C2 -/

/-- Claim C2: at the all-zero input with requests = 1, all four report
costs are 0 — but every percentage-savings cell of the report divides by
that zero normal cost, and Python float division by zero raises
`ZeroDivisionError` (modelled by `none`), so `print_report` raises
rather than producing a sentinel value.  The code contradicts the
spec's stated contract for this valid degenerate input. -/
theorem C2_zero_normal_cost_divides_by_zero :
    report_costs 0 0 0 1 "sonnet" = (0, 0, 0, 0) ∧
    report_pcts 0 0 0 1 "sonnet" = (none, none, none) := by
  constructor <;>
    norm_num [report_costs, report_pcts, savings_pct, float_div,
      calculate_normal_cost, calculate_batch_cost, calculate_cached_cost,
      calculate_combined_cost, pricing]

/-! ## Claim C3 -/

/-- Claim C3 as stated is false: for tier `"opus"`,
`calculate_cached_cost` does NOT use the requested tier's standalone
input price.  With 1,000,000 input tokens and everything else zero, the
claim's formula with the opus standalone input price (5.00) gives 5,
but the function returns 3 — the sonnet standalone input price. -/
theorem C3_counterexample :
    calculate_cached_cost 1000000 0 0 1 "opus" = 3 ∧
    calculate_cached_cost 1000000 0 0 1 "opus" ≠
      ((0 : ℚ) * pricing.SONNET_CACHE_WRITE +
        (1000000 : ℚ) * pricing.OPUS_INPUT +
        (0 : ℚ) * pricing.OPUS_OUTPUT) / 1000000 := by
  constructor <;>
    norm_num [calculate_cached_cost, pricing]

/-- Claim C3, amended: for every tier other than sonnet,
`calculate_cached_cost` emits the non-fatal advisory notice, never
fails, and computes its result by falling back to the mid-capability
(sonnet) rates for everything — cache write/read AND standalone
input/output — i.e., it returns exactly the sonnet-tier result. -/
theorem C3_amended_full_sonnet_fallback (t o s r : ℤ) (m : String)
    (h : m ≠ "sonnet") :
    cached_cost_notices m ≠ [] ∧
    calculate_cached_cost t o s r m = calculate_cached_cost t o s r "sonnet" := by
  refine ⟨?_, rfl⟩
  simp [cached_cost_notices, h]

/-- Witness for `C3_amended_full_sonnet_fallback` at tier `"haiku"`. -/
theorem C3_witness :
    cached_cost_notices "haiku" ≠ [] ∧
    calculate_cached_cost 1 2 3 4 "haiku" =
      calculate_cached_cost 1 2 3 4 "sonnet" :=
  C3_amended_full_sonnet_fallback 1 2 3 4 "haiku" (by decide)

/-! ## Claim C5 -/

/-- Claim C5 as stated is false: for tier `"haiku"` with requests = 1,
the claim's formula using the haiku standalone input price (1.00) gives
1 at 1,000,000 input tokens, but `calculate_cached_cost` returns 3 —
the sonnet standalone input price is used for every tier. -/
theorem C5_counterexample :
    calculate_cached_cost 1000000 0 0 1 "haiku" = 3 ∧
    calculate_cached_cost 1000000 0 0 1 "haiku" ≠
      ((0 : ℚ) * pricing.SONNET_CACHE_WRITE +
        (1000000 : ℚ) * pricing.HAIKU_INPUT +
        (0 : ℚ) * pricing.HAIKU_OUTPUT) / 1000000 := by
  constructor <;>
    norm_num [calculate_cached_cost, pricing]

/-- Claim C5, amended: for every valid tier, non-negative tokens, and
requests = 1, `calculate_cached_cost` equals
(s × cache_write + t_in × input + t_out × output) / 1e6 with ALL prices
the mid-capability (sonnet) ones, regardless of the requested tier; the
subsequent-call phase contributes exactly 0. -/
theorem C5_amended_single_request_formula (t o s : ℤ) (m : String)
    (hm : m = "sonnet" ∨ m = "opus" ∨ m = "haiku")
    (ht : 0 ≤ t) (ho : 0 ≤ o) (hs : 0 ≤ s) :
    calculate_cached_cost t o s 1 m =
      ((s : ℚ) * pricing.SONNET_CACHE_WRITE +
        (t : ℚ) * pricing.SONNET_INPUT +
        (o : ℚ) * pricing.SONNET_OUTPUT) / 1000000 := by
  simp [calculate_cached_cost]

/-- Witness for `C5_amended_single_request_formula` at tier
`"sonnet"`, tokens (2, 3, 4). -/
theorem C5_witness :
    calculate_cached_cost 2 3 4 1 "sonnet" =
      ((4 : ℚ) * pricing.SONNET_CACHE_WRITE +
        (2 : ℚ) * pricing.SONNET_INPUT +
        (3 : ℚ) * pricing.SONNET_OUTPUT) / 1000000 :=
  C5_amended_single_request_formula 2 3 4 "sonnet" (Or.inl rfl)
    (by decide) (by decide) (by decide)

/-! ## Claim C9 -/

/-- Claim C9: for every request count below the stated minimum of 1
(zero or negative), `calculate_cached_cost` and
`calculate_combined_cost` still return the full first-request cost
including the cache-write charge, rather than 0 or an error: the
subsequent-call term is zeroed (the `requests > 1` guard fails) while
the first-call term is charged unconditionally. -/
theorem C9_below_minimum_requests (t o s r : ℤ) (m : String) (hr : r < 1) :
    calculate_cached_cost t o s r m =
      ((s : ℚ) * pricing.SONNET_CACHE_WRITE +
        (t : ℚ) * pricing.SONNET_INPUT +
        (o : ℚ) * pricing.SONNET_OUTPUT) / 1000000 ∧
    calculate_combined_cost t o s r =
      ((s : ℚ) * pricing.SONNET_CACHE_WRITE +
        (t : ℚ) * pricing.SONNET_BATCH_INPUT +
        (o : ℚ) * pricing.SONNET_BATCH_OUTPUT) / 1000000 := by
  have h : ¬ r > 1 := by omega
  constructor <;> simp [calculate_cached_cost, calculate_combined_cost, h]

/-- Witness for `C9_below_minimum_requests` at requests = 0. -/
theorem C9_witness :
    calculate_cached_cost 1 2 3 0 "sonnet" =
      ((3 : ℚ) * pricing.SONNET_CACHE_WRITE +
        (1 : ℚ) * pricing.SONNET_INPUT +
        (2 : ℚ) * pricing.SONNET_OUTPUT) / 1000000 ∧
    calculate_combined_cost 1 2 3 0 =
      ((3 : ℚ) * pricing.SONNET_CACHE_WRITE +
        (1 : ℚ) * pricing.SONNET_BATCH_INPUT +
        (2 : ℚ) * pricing.SONNET_BATCH_OUTPUT) / 1000000 :=
  C9_below_minimum_requests 1 2 3 0 "sonnet" (by decide)

end CalculateSavings

namespace CalculateSavings

/-! ## Claim C4 -/

/-- Claim C4: for every valid tier, all non-negative token counts, and
every request count ≥ 1, the batch cost never exceeds the normal cost
(every batch price is exactly half the corresponding standalone
price). -/
theorem C4_batch_le_normal (t o r : ℤ) (m : String)
    (hm : m = "sonnet" ∨ m = "opus" ∨ m = "haiku")
    (ht : 0 ≤ t) (ho : 0 ≤ o) (hr : 1 ≤ r) :
    calculate_batch_cost t o r m ≤ calculate_normal_cost t o r m := by
  have htq : (0 : ℚ) ≤ (t : ℚ) := by exact_mod_cast ht
  have hoq : (0 : ℚ) ≤ (o : ℚ) := by exact_mod_cast ho
  have hrq : (0 : ℚ) ≤ (r : ℚ) := by
    exact_mod_cast le_trans zero_le_one hr
  rcases hm with h | h | h <;> subst h <;>
    simp only [calculate_batch_cost, calculate_normal_cost, pricing,
      String.reduceEq, reduceIte] <;>
    nlinarith [mul_nonneg htq hrq, mul_nonneg hoq hrq]

/-- Witness for `C4_batch_le_normal` at tier `"opus"`,
tokens (10, 20), requests 3. -/
theorem C4_witness :
    calculate_batch_cost 10 20 3 "opus" ≤ calculate_normal_cost 10 20 3 "opus" :=
  C4_batch_le_normal 10 20 3 "opus" (Or.inr (Or.inl rfl))
    (by decide) (by decide) (by decide)

/-! ## Claim C6 -/

/-- Claim C6: for requests > 1 and non-negative token counts,
raising the request count by one raises `calculate_cached_cost` by
exactly (system_tokens × cache_read_price + tokens_in × input_price +
tokens_out × output_price) / 1,000,000 — the read phase is linear in
the request count.  (The prices are the sonnet constants, the only ones
the function uses; the identity holds for every model string.) -/
theorem C6_read_phase_linear (t o s r : ℤ) (m : String)
    (ht : 0 ≤ t) (ho : 0 ≤ o) (hs : 0 ≤ s) (hr : 1 < r) :
    calculate_cached_cost t o s (r + 1) m - calculate_cached_cost t o s r m =
      ((s : ℚ) * pricing.SONNET_CACHE_READ +
        (t : ℚ) * pricing.SONNET_INPUT +
        (o : ℚ) * pricing.SONNET_OUTPUT) / 1000000 := by
  have h2 : 1 < r + 1 := by omega
  simp only [calculate_cached_cost, pricing, hr, h2, if_true, gt_iff_lt]
  push_cast
  ring

/-- Witness for `C6_read_phase_linear` at tokens (1, 2, 3),
requests 5, tier `"sonnet"`. -/
theorem C6_witness :
    calculate_cached_cost 1 2 3 (5 + 1) "sonnet" -
      calculate_cached_cost 1 2 3 5 "sonnet" =
      ((3 : ℚ) * pricing.SONNET_CACHE_READ +
        (1 : ℚ) * pricing.SONNET_INPUT +
        (2 : ℚ) * pricing.SONNET_OUTPUT) / 1000000 :=
  C6_read_phase_linear 1 2 3 5 "sonnet"
    (by decide) (by decide) (by decide) (by decide)

/-! ## Claim C7 -/

/-- Claim C7: on the sonnet tier (the one `calculate_combined_cost`
supports), for identical non-negative inputs with requests ≥ 1, the
combined (batch + caching) cost never exceeds the cached cost: batch
input/output rates are half the standalone ones, and the cache
write/read terms coincide. -/
theorem C7_combined_le_cached (t o s r : ℤ)
    (ht : 0 ≤ t) (ho : 0 ≤ o) (hs : 0 ≤ s) (hr : 1 ≤ r) :
    calculate_combined_cost t o s r ≤ calculate_cached_cost t o s r "sonnet" := by
  have htq : (0 : ℚ) ≤ (t : ℚ) := by exact_mod_cast ht
  have hoq : (0 : ℚ) ≤ (o : ℚ) := by exact_mod_cast ho
  have hsq : (0 : ℚ) ≤ (s : ℚ) := by exact_mod_cast hs
  simp only [calculate_combined_cost, calculate_cached_cost, pricing]
  by_cases h : r > 1
  · have hrq : (1 : ℚ) ≤ (r : ℚ) := by exact_mod_cast le_of_lt h
    have hr1 : (0 : ℚ) ≤ (r : ℚ) - 1 := by linarith
    simp only [h, if_true]
    nlinarith [mul_nonneg hr1 htq, mul_nonneg hr1 hoq, mul_nonneg hr1 hsq]
  · simp only [h, if_false]
    linarith

/-- Witness for `C7_combined_le_cached` at tokens (1, 2, 3),
requests 4. -/
theorem C7_witness :
    calculate_combined_cost 1 2 3 4 ≤ calculate_cached_cost 1 2 3 4 "sonnet" :=
  C7_combined_le_cached 1 2 3 4 (by decide) (by decide) (by decide) (by decide)

/-! ## Claim C10 -/

/-- Claim C10: on the sonnet tier with zero system tokens, the cached
cost equals the normal cost exactly for every request count ≥ 1 — with
nothing cacheable, the caching policy neither adds cost nor saves
any. -/
theorem C10_zero_system_cached_eq_normal (t o r : ℤ)
    (ht : 0 ≤ t) (ho : 0 ≤ o) (hr : 1 ≤ r) :
    calculate_cached_cost t o 0 r "sonnet" = calculate_normal_cost t o r "sonnet" := by
  simp only [calculate_cached_cost, calculate_normal_cost, pricing,
    String.reduceEq, reduceIte]
  by_cases h : r > 1
  · simp only [h, if_true]
    push_cast
    ring
  · have h1 : r = 1 := by omega
    subst h1
    norm_num

/-- Witness for `C10_zero_system_cached_eq_normal` at tokens (10, 20),
requests 5. -/
theorem C10_witness :
    calculate_cached_cost 10 20 0 5 "sonnet" = calculate_normal_cost 10 20 5 "sonnet" :=
  C10_zero_system_cached_eq_normal 10 20 5 (by decide) (by decide) (by decide)

/-! ## Claim C8 -/

/-- Claim C8 as stated is false in its final figure: at the concrete
scenario (sonnet, input 1000, output 500, system 2000, requests 100)
the total cached cost is exactly 1.1169 — equal to
0.018 + 99 × 0.0111 — not ≈ 1.1109 as the spec states: the computed
value differs from 1.1109 by 0.006, sixty times the resolution of the
four-decimal figure given. -/
theorem C8_counterexample :
    calculate_cached_cost 1000 500 2000 100 "sonnet" = 1.1169 ∧
    calculate_cached_cost 1000 500 2000 100 "sonnet" ≠ 1.1109 ∧
    calculate_cached_cost 1000 500 2000 100 "sonnet" - 1.1109 = 0.006 := by
  refine ⟨?_, ?_, ?_⟩ <;>
    norm_num [calculate_cached_cost, pricing]

/-- Claim C8, amended: at the concrete scenario (sonnet, input 1000,
output 500, system 2000, requests 100) the report computes: normal cost
(system tokens pre-added, 3000 input tokens) exactly 1.65; batch cost
exactly 0.825 = half of normal; cached first-call term exactly 0.018;
the 99 subsequent calls exactly 99 × 0.0111 in total (0.0111 each, by
`C6_read_phase_linear`); and total cached cost exactly
0.018 + 99 × 0.0111 = 1.1169 (not 1.1109). -/
theorem C8_amended_scenario :
    report_costs 1000 500 2000 100 "sonnet" = (1.65, 0.825, 1.1169, 0.5919) ∧
    calculate_batch_cost 3000 500 100 "sonnet" =
      calculate_normal_cost 3000 500 100 "sonnet" / 2 ∧
    calculate_cached_cost 1000 500 2000 1 "sonnet" = 0.018 ∧
    calculate_cached_cost 1000 500 2000 100 "sonnet" -
      calculate_cached_cost 1000 500 2000 1 "sonnet" = 99 * 0.0111 ∧
    calculate_cached_cost 1000 500 2000 100 "sonnet" = 0.018 + 99 * 0.0111 := by
  refine ⟨?_, ?_, ?_, ?_, ?_⟩ <;>
    norm_num [report_costs, calculate_normal_cost, calculate_batch_cost,
      calculate_cached_cost, calculate_combined_cost, pricing, Prod.ext_iff]

end CalculateSavings
